import Mathlib

/-!
# Verification of the piperum pipeline runner

Shallow embedding of the piperum sources (`piperum/utils.py`,
`piperum/runner.py`, `piperum/background.py`) and proofs about the
behavior of stream preparation, pipeline construction, foreground
draining, session derivation and the background task machinery.

Machine-level conventions of the embedding:
* Python dicts over string keys/values are insertion-ordered association
  lists with unique keys (`Dict`), with `dictSet` modelling `d[k] = v`
  and `dictUpdate` modelling `d.update(e)`.
* Python 3 `map(...)` / `filter(...)` objects are lazy iterators:
  constructing one performs none of the pending calls; only consuming it
  (`list(...)`, a `for` loop) performs them.  A bare expression statement
  evaluates the expression and discards the result, so a discarded
  iterator performs no calls.
* OS handles and the `subprocess.PIPE` / `subprocess.STDOUT` markers are
  the inductive `Handle`.
-/

namespace Piperum

/-! ## Python dictionaries -/

/-- A Python `dict[str, str]`: insertion-ordered association list. -/
abbrev Dict := List (String × String)

/-- Lookup, `d.get(k)` / `d[k]`. -/
def dictGet (d : Dict) (k : String) : Option String :=
  (d.find? (fun kv => kv.1 == k)).map Prod.snd

/-- Item assignment `d[k] = v`: replace the binding in place when the
key is present (a dict holds at most one binding per key), otherwise
append at the end (insertion order). -/
def dictSet : Dict → String → String → Dict
  | [], k, v => [(k, v)]
  | kv :: tl, k, v => if kv.1 == k then (k, v) :: tl else kv :: dictSet tl k v

/-- `d.update(e)`: assign every binding of `e` into `d`, left to right. -/
def dictUpdate (d e : Dict) : Dict :=
  e.foldl (fun acc kv => dictSet acc kv.1 kv.2) d

/-! ## Python lazy iterators (`map`, `filter`) -/

/-- A Python 3 iterator as produced by `map`/`filter`: it records the
calls it would make if consumed, and makes none of them at construction. -/
structure PyLazyIter (α : Type) where
  pending : List α
deriving Repr, DecidableEq

/-- `filter(p, xs)`: lazy, construction performs no work. -/
def pyFilter {α : Type} (p : α → Bool) (xs : List α) : PyLazyIter α :=
  ⟨xs.filter p⟩

/-- `map(f, it)`: lazy, construction performs none of the calls `f x`. -/
def pyMapIter {α β : Type} (f : α → β) (it : PyLazyIter α) : PyLazyIter β :=
  ⟨it.pending.map f⟩

/-- `map(f, xs)` over a list: lazy as well. -/
def pyMapList {α β : Type} (f : α → β) (xs : List α) : PyLazyIter β :=
  ⟨xs.map f⟩

/-- Effects performed by a bare expression statement that builds an
iterator and discards it: none at all. -/
def PyLazyIter.effectsWhenDiscarded {α : Type} (_ : PyLazyIter α) : List α :=
  []

/-- Effects performed when the iterator is actually consumed
(`list(it)`, a `for` loop): all its pending calls, in order. -/
def PyLazyIter.effectsWhenConsumed {α : Type} (it : PyLazyIter α) : List α :=
  it.pending

/-! ## Handles and stream opening (`utils.open_stream_w` / `open_stream_r`) -/

/-- A value that can stand in a `std*` slot of `Popen`:
* `file p m`    — an open file object on path `p` in mode `m`;
* `pipeMarker`  — the `subprocess.PIPE` marker;
* `stdoutMarker` — the `subprocess.STDOUT` marker (stderr merged to stdout);
* `stdoutPipeOf i` — the parent end of the stdout pipe that `Popen`
  created for stage `i` (the object `prcs[i].stdout`). -/
inductive Handle where
  | file (path : String) (mode : String)
  | pipeMarker
  | stdoutMarker
  | stdoutPipeOf (stage : Nat)
deriving Repr, DecidableEq

/-- Python `str.strip()`: remove leading and trailing whitespace. -/
def pyStrip (s : String) : String :=
  ⟨((s.data.dropWhile Char.isWhitespace).reverse.dropWhile
      Char.isWhitespace).reverse⟩

/-- Whether the raw path matches `DO_APPEND_RE = ^\+`. -/
def startsWithPlus (s : String) : Bool :=
  match s.data with
  | c :: _ => c == '+'
  | [] => false

/-- `re.sub(r"^\+", "", str(path))`: the anchored pattern matches at
most once, removing one leading `+`. -/
def dropLeadingPlus (s : String) : String :=
  match s.data with
  | c :: rest => if c == '+' then ⟨rest⟩ else ⟨c :: rest⟩
  | [] => ⟨[]⟩

/-- `re.sub(r"^\+", "", str(path)).strip()`: drop one leading `+`, then
trim surrounding whitespace. -/
def cleanPath (p : String) : String :=
  pyStrip (dropLeadingPlus p)

/-- `open_stream_w`: `None` stays `None`; otherwise open the cleaned path
in append mode when the raw path starts with `+`, else in write mode. -/
def open_stream_w (path : Option String) : Option Handle :=
  match path with
  | none => none
  | some p => some (.file (cleanPath p) (if startsWithPlus p then "a" else "w"))

/-- `open_stream_r`: `None` stays `None`; otherwise open the cleaned path
for reading. -/
def open_stream_r (path : Option String) : Option Handle :=
  match path with
  | none => none
  | some p => some (.file (cleanPath p) "r")

/-- The file handles opened by producing the given `std*` value (the
`PIPE`/`STDOUT` markers open nothing). -/
def opensOf : Option Handle → List Handle
  | some (.file p m) => [.file p m]
  | _ => []

/-! ## `utils.prepare_std` -/

/-- The triple yielded by `prepare_std`: `(stdin, stdout, stderr)`.
`none` means the corresponding Python value is `None` (inherit). -/
structure StdTriple where
  stdin : Option Handle
  stdout : Option Handle
  stderr : Option Handle
deriving Repr, DecidableEq

/-- Result of entering the `prepare_std` context manager: the handles it
opened on the way (in opening order) and either the yielded triple or the
configuration error it raised. -/
instance : DecidableEq (Except String StdTriple) := fun a b =>
  match a, b with
  | .ok x, .ok y =>
    if h : x = y then isTrue (by rw [h]) else isFalse (by simp [h])
  | .error x, .error y =>
    if h : x = y then isTrue (by rw [h]) else isFalse (by simp [h])
  | .ok _, .error _ => isFalse (by simp)
  | .error _, .ok _ => isFalse (by simp)

structure PrepResult where
  opened : List Handle
  result : Except String StdTriple
deriving Repr, DecidableEq

/-- `prepare_std(inptxt, inpfl, outfl, errfl, err2out)` up to its `yield`:
opens stdout first, then checks the `inptxt`/`inpfl` conflict, resolves
stdin (`PIPE` for input text, else the input file), then resolves stderr
(`STDOUT` marker under `err2out`, with the `errfl` conflict check, else
the error file). -/
def prepare_std (inptxt inpfl outfl errfl : Option String) (err2out : Bool) :
    PrepResult :=
  let stdout := open_stream_w outfl
  if inptxt.isSome && inpfl.isSome then
    { opened := opensOf stdout
      result := .error "Arguments conflict: [inptxt, inpfl]" }
  else
    let stdin : Option Handle :=
      if inptxt.isSome then some .pipeMarker else open_stream_r inpfl
    let openedIn : List Handle :=
      if inptxt.isSome then [] else opensOf (open_stream_r inpfl)
    if err2out then
      if errfl.isSome then
        { opened := opensOf stdout ++ openedIn
          result := .error "Arguments conflict: [errfl, err2out]" }
      else
        { opened := opensOf stdout ++ openedIn
          result := .ok ⟨stdin, stdout, some .stdoutMarker⟩ }
    else
      let stderr := open_stream_w errfl
      { opened := opensOf stdout ++ openedIn ++ opensOf stderr
        result := .ok ⟨stdin, stdout, stderr⟩ }

/-- The `finally` block of `prepare_std`, run when the yielded triple's
scope ends:
`map(lambda stream: stream.close(), filter(lambda stream: stream is not None, [stdin, stdout, stderr]))`
is a bare expression statement; `map` and `filter` are lazy, the map
object is discarded unconsumed, so the close calls it records are never
performed. -/
def prepare_std_exit_closes (stdin stdout stderr : Option Handle) :
    List (Option Handle) :=
  (pyMapIter (fun stream => stream)
    (pyFilter (fun stream : Option Handle => stream.isSome)
      [stdin, stdout, stderr])).effectsWhenDiscarded

/-- The close calls that same map object would perform if it were
consumed: every non-`None` stream of the triple. -/
def prepare_std_intended_closes (stdin stdout stderr : Option Handle) :
    List (Option Handle) :=
  (pyMapIter (fun stream => stream)
    (pyFilter (fun stream : Option Handle => stream.isSome)
      [stdin, stdout, stderr])).effectsWhenConsumed

/-! ## `utils.construct_pipeline` -/

/-- One spawned pipeline stage: the `Popen` call's arguments together
with the pid handed out by the OS and the effective process group the
child ends up in (`process_group = 0` puts the child in a fresh group
whose id is its own pid; a non-zero argument joins that group). -/
structure SpawnedProc where
  idx : Nat
  pid : Nat
  cmd : String
  stdin : Option Handle
  stdout : Option Handle
  stderr : Option Handle
  envArg : Dict
  cwd : Option String
  processGroupArg : Nat
  pgid : Nat
deriving Repr, DecidableEq

/-- The `Popen.stdout` attribute of a spawned stage: a pipe object
exactly when the stage was created with `stdout=PIPE`, else `None`. -/
def popen_stdout_attr (p : SpawnedProc) : Option Handle :=
  if p.stdout = some Handle.pipeMarker then some (.stdoutPipeOf p.idx) else none

/-- The `Popen.stdin` attribute holds a writable pipe exactly when the
stage was created with `stdin=PIPE`. -/
def popen_stdin_is_pipe (p : SpawnedProc) : Bool :=
  p.stdin = some Handle.pipeMarker

/-- The environment the child of `Popen(..., env=e)` actually receives
when `e` is not `None`: exactly `e`; nothing of the parent's environment
is inherited. -/
def childEnv (p : SpawnedProc) : Dict :=
  p.envArg

/-- The local `prcs_env` that `construct_pipeline` computes:
`os.environ.copy()` updated with the extra variables.  (The guard
`if env is not dict` compares against the type object and is always true
for an actual dict argument.)  This merged map is never passed on to
`Popen`. -/
def mergedEnv (environ env : Dict) : Dict :=
  dictUpdate environ env

/-- The fixed data of one `construct_pipeline` call. -/
structure PipeCtx where
  cwd : Option String
  env : Dict
  stdin : Option Handle
  stdout : Option Handle
  stderr : Option Handle
  n : Nat
  pidOf : Nat → Nat

/-- The `for i, cmd in enumerate(cmds)` loop of `construct_pipeline`.
`i` is the current index, `pgid` the running process-group variable
(`0` until the first stage is spawned), and `prevOut` the previous
stage's `Popen.stdout` (`prcs[i - 1].stdout`). -/
def construct_loop (ctx : PipeCtx) :
    List String → Nat → Nat → Option Handle → List SpawnedProc
  | [], _, _, _ => []
  | cmd :: rest, i, pgid, prevOut =>
    let prc_stdin : Option Handle := if i = 0 then ctx.stdin else prevOut
    let prc_stdout : Option Handle :=
      if i = ctx.n - 1 then ctx.stdout
      else if i < ctx.n - 1 then some .pipeMarker
      else none
    let pid := ctx.pidOf i
    let prc : SpawnedProc :=
      { idx := i, pid := pid, cmd := cmd, stdin := prc_stdin,
        stdout := prc_stdout, stderr := ctx.stderr, envArg := ctx.env,
        cwd := ctx.cwd, processGroupArg := pgid,
        pgid := if pgid = 0 then pid else pgid }
    let pgid2 := if pgid = 0 then pid else pgid
    prc :: construct_loop ctx rest (i + 1) pgid2 (popen_stdout_attr prc)

/-- `construct_pipeline(*cmds, cwd, env, stdin, stdout, stderr)`:
spawn the stages left to right with pids supplied by `pidOf`. -/
def construct_pipeline (cmds : List String) (cwd : Option String)
    (env : Dict) (stdin stdout stderr : Option Handle)
    (pidOf : Nat → Nat) : List SpawnedProc :=
  construct_loop ⟨cwd, env, stdin, stdout, stderr, cmds.length, pidOf⟩
    cmds 0 0 none

/-! ## Signals and group kills -/

def SIGKILL : Nat := 9

def SIGTERM : Nat := 15

/-- A delivered `os.killpg(pgid, sig)` call. -/
structure KillEvent where
  pgid : Nat
  sig : Nat
deriving Repr, DecidableEq

/-- Python `signal or SIGKILL`: an `int` is falsy exactly when it is 0. -/
def pyOrSig (sig : Nat) : Nat :=
  if sig = 0 then SIGKILL else sig

/-- `os.killpg(pgid, sig)`: delivers the signal when the group still
exists, raises `ProcessLookupError` otherwise. -/
def os_killpg (groupExists : Bool) (pgid sig : Nat) :
    Except Unit KillEvent :=
  if groupExists then .ok ⟨pgid, sig⟩ else .error ()

/-- `Task.kill(signal=SIGTERM)`:
`os.killpg(self.pid, signal or SIGKILL)` inside
`try ... except ProcessLookupError: pass`.  Returns the kill events that
were actually delivered; the total return type reflects that the
no-such-process error never propagates. -/
def Task_kill (pid : Nat) (groupExists : Bool)
    (sig : Nat := SIGTERM) : List KillEvent :=
  match os_killpg groupExists pid (pyOrSig sig) with
  | .ok ev => [ev]
  | .error _ => []

/-- Outcome of `Piperum._kill(prcs)`. -/
structure KillOutcome where
  /-- the `os.killpg(prcs[0].pid, SIGKILL)` call, `none` when the group
  was already gone and `ProcessLookupError` was swallowed -/
  killpgSent : Option KillEvent
  /-- whether any error propagates out of `_kill` -/
  raised : Bool
  /-- pids the function actually waits on (reaps) -/
  waitedPids : List Nat
deriving Repr, DecidableEq

/-- `Piperum._kill(prcs)`: SIGKILL to the group of `prcs[0]`, the
`ProcessLookupError` swallowed, then the bare statement
`map(lambda prc: prc.wait(), prcs)` — a lazy map object that is
discarded unconsumed, so none of the `wait` calls is performed. -/
def Piperum_kill (groupExists : Bool) (prcs : List SpawnedProc) :
    KillOutcome :=
  let sent : Option KillEvent :=
    match prcs.head? with
    | none => none
    | some p0 =>
      match os_killpg groupExists p0.pid SIGKILL with
      | .ok ev => some ev
      | .error _ => none
  { killpgSent := sent
    raised := false
    waitedPids :=
      (pyMapList (fun prc : SpawnedProc => prc.pid) prcs).effectsWhenDiscarded }

/-- Pids the `_kill` map would reap if its iterator were consumed. -/
def Piperum_kill_intended_waits (prcs : List SpawnedProc) : List Nat :=
  (pyMapList (fun prc : SpawnedProc => prc.pid) prcs).effectsWhenConsumed

/-! ## Foreground draining (`Piperum.run` / `Piperum.cap` loops) -/

/-- Python `a or b` on optional strings: first truthy operand
(`None` and `""` are falsy). -/
def pyTruthyStr : Option String → Bool
  | none => false
  | some s => !(s == "")

def pyOr (a b : Option String) : Option String :=
  if pyTruthyStr a then a else b

/-- Events on a stage's stdin during draining. -/
inductive FeedEvent where
  | wroteStdin (stage : Nat) (text : String)
  | closedStdin (stage : Nat)
deriving Repr, DecidableEq

/-- The stdin-side effects of `Popen.communicate(input=...)`: only a
`Popen` created with `stdin=PIPE` holds a stdin stream; then
`communicate` writes the input (when one is given) and closes the
stream.  Otherwise the `input` argument is ignored and `communicate`
merely waits for the process. -/
def communicate_stdin_effects (stage : Nat) (isPipe : Bool)
    (input : Option String) : List FeedEvent :=
  if isPipe then
    (match input with
     | some t => [.wroteStdin stage t]
     | none => []) ++ [.closedStdin stage]
  else []

/-- The stdin events produced by `Piperum.run`'s draining loop:
`prc.wait(timeout)` while `prc_inp is None`, else
`prc.communicate(input=prc_inp, timeout=timeout)` followed by
`prc_inp = None`. -/
def run_drain_feeds : List SpawnedProc → Nat → Option String → List FeedEvent
  | [], _, _ => []
  | p :: rest, i, prcInp =>
    match prcInp with
    | none => run_drain_feeds rest (i + 1) none
    | some t =>
      communicate_stdin_effects i (popen_stdin_is_pipe p) (some t)
        ++ run_drain_feeds rest (i + 1) none

/-- The stdin events produced by `Piperum.cap`'s draining loop
(`n = len(prcs)`): a single stage always gets `communicate(input=prc_inp)`;
otherwise the first stage with a pending `prc_inp` gets
`communicate(input=prc_inp)`, the last stage gets a capturing
`communicate()`, and middle stages are waited on. -/
def cap_drain_feeds (n : Nat) :
    List SpawnedProc → Nat → Option String → List FeedEvent
  | [], _, _ => []
  | p :: rest, i, prcInp =>
    if n = 1 then
      communicate_stdin_effects i (popen_stdin_is_pipe p) prcInp
        ++ cap_drain_feeds n rest (i + 1) prcInp
    else if prcInp.isSome then
      communicate_stdin_effects i (popen_stdin_is_pipe p) prcInp
        ++ cap_drain_feeds n rest (i + 1) none
    else if i = n - 1 then
      communicate_stdin_effects i (popen_stdin_is_pipe p) none
        ++ cap_drain_feeds n rest (i + 1) prcInp
    else
      cap_drain_feeds n rest (i + 1) prcInp

/-! ## The session object (`Piperum.__call__`) -/

/-- The configuration a `Piperum` session carries. -/
structure PiperumState where
  env : Dict
  cwd : Option String
deriving Repr, DecidableEq

/-- `Piperum.__call__(cwd=None, **env)`: `copy.copy(self)` is a shallow
copy, `new_piperum._env = self._env` aliases the very same dict, and
`new_piperum._env.update(env)` mutates it.  The result is the pair
(the original session as observable after the call, the derived
session). -/
def Piperum_call (s : PiperumState) (cwd : Option String) (e : Dict) :
    PiperumState × PiperumState :=
  let sharedEnv := dictUpdate s.env e
  ({ env := sharedEnv, cwd := s.cwd },
   { env := sharedEnv, cwd := if cwd.isSome then cwd else s.cwd })

/-! ## Entry points: what is opened and spawned -/

/-- Opening/spawning outcome of one `run`/`cap`/`run_bg` call. -/
structure EntryResult where
  opened : List Handle
  spawned : List SpawnedProc
  configError : Option String
deriving Repr

/-- `Piperum.run` up to pipeline construction: `prepare_std` inside the
`with` header, then `construct_pipeline(*cmds, cwd=self._cwd,
env=self._env, stdin=std[0], stdout=std[1], stderr=std[2])`.  No stage
is spawned when `prepare_std` raises. -/
def Piperum_run_spawn (envOverlay : Dict) (cwd : Option String)
    (cmds : List String) (inptxt inpfl outfl errfl : Option String)
    (err2out : Bool) (pidOf : Nat → Nat) : EntryResult :=
  match (prepare_std inptxt inpfl outfl errfl err2out).result with
  | .error e =>
    ⟨(prepare_std inptxt inpfl outfl errfl err2out).opened, [], some e⟩
  | .ok std =>
    ⟨(prepare_std inptxt inpfl outfl errfl err2out).opened,
     construct_pipeline cmds cwd envOverlay std.stdin std.stdout std.stderr pidOf,
     none⟩

/-- `Piperum.cap` up to pipeline construction: like `run` but
`prepare_std` is called with `outfl=None` and the pipeline is built with
`stdout=PIPE`. -/
def Piperum_cap_spawn (envOverlay : Dict) (cwd : Option String)
    (cmds : List String) (inptxt inpfl errfl : Option String)
    (err2out : Bool) (pidOf : Nat → Nat) : EntryResult :=
  match (prepare_std inptxt inpfl none errfl err2out).result with
  | .error e =>
    ⟨(prepare_std inptxt inpfl none errfl err2out).opened, [], some e⟩
  | .ok std =>
    ⟨(prepare_std inptxt inpfl none errfl err2out).opened,
     construct_pipeline cmds cwd envOverlay std.stdin (some .pipeMarker) std.stderr pidOf,
     none⟩

/-- `Piperum.run_bg` up to pipeline construction: `prepare_std` without
any input text (the parameter does not exist), then the same
construction as `run`. -/
def Piperum_run_bg_spawn (envOverlay : Dict) (cwd : Option String)
    (cmds : List String) (inpfl outfl errfl : Option String)
    (err2out : Bool) (pidOf : Nat → Nat) : EntryResult :=
  match (prepare_std none inpfl outfl errfl err2out).result with
  | .error e =>
    ⟨(prepare_std none inpfl outfl errfl err2out).opened, [], some e⟩
  | .ok std =>
    ⟨(prepare_std none inpfl outfl errfl err2out).opened,
     construct_pipeline cmds cwd envOverlay std.stdin std.stdout std.stderr pidOf,
     none⟩

/-! ## `background.Task.wait` -/

/-- Result of `Task.wait(timeout)`.  `returned rc waited`: the function
returned `rc` (`none` is Python's implicit `None`) having waited on the
stages listed in `waited`; `timedOut kills waited`: a wait raised
`TimeoutExpired`, the listed kill events were delivered, and the
exception was re-raised. -/
inductive TaskWaitResult where
  | returned (rc : Option Int) (waitedStages : List Nat)
  | timedOut (kills : List KillEvent) (waitedStages : List Nat)
deriving Repr, DecidableEq

/-- `Task.wait(timeout)`: `for prc in self._prcs: try: return
prc.wait(timeout) except TimeoutExpired: self.kill(signal=SIGKILL);
raise`.  `stageWaits` gives, per stage, the outcome of its
`wait(timeout)` (`some rc` = exited with `rc`, `none` = the wait raised
`TimeoutExpired`).  The unconditional `return` makes the first loop
iteration the only one. -/
def Task_wait (pid : Nat) (groupExists : Bool)
    (stageWaits : List (Option Int)) : TaskWaitResult :=
  match stageWaits with
  | [] => .returned none []
  | w :: _ =>
    match w with
    | some rc => .returned (some rc) [0]
    | none => .timedOut (Task_kill pid groupExists SIGKILL) [0]

/-! ## `background.TaskPoller` -/

/-- A background task as the poller sees it: an identity and the
`returncode` probe of its tail stage (`self._prcs[-1].poll()`). -/
structure BgTask where
  id : Nat
  returncode : Option Int
deriving Repr, DecidableEq

/-- One sweep of `TaskPoller._poll_func`: collect every outstanding task
whose tail stage has exited into `finished_tasks`, then
`self.tasks.difference_update(finished_tasks)`. -/
def poll_sweep (tasks : List BgTask) : List BgTask :=
  let finished := tasks.filter (fun t => t.returncode.isSome)
  tasks.filter (fun t => decide (t ∉ finished))

/-- One iteration of the polling loop after its sleep: `break` (the
thread exits, `none`) when the outstanding set is empty, else perform a
sweep. -/
def poll_iteration (tasks : List BgTask) : Option (List BgTask) :=
  if tasks.isEmpty then none else some (poll_sweep tasks)

/-- The poller's shared state: the outstanding set and whether the
polling thread exists and is alive (`None` and a dead thread collapse to
`false`). -/
structure PollerState where
  tasks : List BgTask
  threadAlive : Bool
deriving Repr, DecidableEq

/-- `TaskPoller.add(task)`: add to the outstanding set; when the thread
is absent or dead, start a fresh polling thread; return the task. -/
def TaskPoller_add (st : PollerState) (t : BgTask) :
    PollerState × BgTask :=
  let tasks2 := if t ∈ st.tasks then st.tasks else t :: st.tasks
  let th2 := if st.threadAlive then st.threadAlive else true
  (⟨tasks2, th2⟩, t)

/-! ## Dictionary lemmas -/

lemma dictGet_dictSet (d : Dict) (k v k' : String) :
    dictGet (dictSet d k v) k' = if k' = k then some v else dictGet d k' := by
  induction d with
  | nil =>
    by_cases hk' : k' = k
    · simp [dictSet, dictGet, List.find?_cons, beq_iff_eq, hk']
    · have hkk : (k == k') = false := beq_eq_false_iff_ne.mpr (fun h => hk' h.symm)
      simp [dictSet, dictGet, List.find?_cons, hkk, hk']
  | cons a tl ih =>
    by_cases hak : a.1 = k
    · by_cases hk' : k' = k
      · simp [dictSet, dictGet, List.find?_cons, beq_iff_eq, hak, hk']
      · have hkk : (k == k') = false := beq_eq_false_iff_ne.mpr (fun h => hk' h.symm)
        have hak' : (a.1 == k') = false := by rw [hak]; exact hkk
        simp [dictSet, dictGet, List.find?_cons, beq_iff_eq, hak, hkk, hak', hk']
    · have hakb : (a.1 == k) = false := beq_eq_false_iff_ne.mpr hak
      by_cases hak' : a.1 = k'
      · have hk' : ¬ k' = k := fun h => hak (hak'.trans h)
        simp [dictSet, dictGet, List.find?_cons, hakb, beq_iff_eq, hak', hk']
      · have hakb' : (a.1 == k') = false := beq_eq_false_iff_ne.mpr hak'
        have hset : dictSet (a :: tl) k v = a :: dictSet tl k v := by
          simp [dictSet, hakb]
        have hcons : dictGet (a :: tl) k' = dictGet tl k' := by
          simp [dictGet, List.find?_cons, hakb']
        have hcons2 : dictGet (a :: dictSet tl k v) k' = dictGet (dictSet tl k v) k' := by
          simp [dictGet, List.find?_cons, hakb']
        rw [hset, hcons2, hcons, ih]

lemma dictGet_eq_none_of_not_mem (d : Dict) (k : String)
    (h : k ∉ d.map Prod.fst) : dictGet d k = none := by
  unfold dictGet
  have hfind : d.find? (fun kv => kv.1 == k) = none := by
    rw [List.find?_eq_none]
    intro kv hkv
    simp only [beq_iff_eq]
    intro hkk
    exact h (List.mem_map.mpr ⟨kv, hkv, hkk⟩)
  simp [hfind]

/-- The mapping that `d.update(e)` leaves in `d`, observationally: a key
bound by the overlay reads its overlay value, any other key keeps its
prior value. -/
lemma dictGet_dictUpdate (d e : Dict) (he : (e.map Prod.fst).Nodup)
    (k : String) :
    dictGet (dictUpdate d e) k =
      if (dictGet e k).isSome then dictGet e k else dictGet d k := by
  induction e generalizing d with
  | nil => simp [dictUpdate, dictGet]
  | cons a tl ih =>
    simp only [List.map_cons, List.nodup_cons] at he
    have step : dictUpdate d (a :: tl) = dictUpdate (dictSet d a.1 a.2) tl := rfl
    rw [step, ih _ he.2]
    by_cases hk : k = a.1
    · have htl : dictGet tl k = none := by
        rw [hk]; exact dictGet_eq_none_of_not_mem tl a.1 he.1
      have hhead : dictGet (a :: tl) k = some a.2 := by
        simp [dictGet, List.find?_cons, beq_iff_eq, hk.symm]
      rw [htl, hhead, dictGet_dictSet]
      simp [hk]
    · have hhead : dictGet (a :: tl) k = dictGet tl k := by
        have hfa : (a.1 == k) = false :=
          beq_eq_false_iff_ne.mpr (fun h => hk h.symm)
        simp [dictGet, List.find?_cons, hfa]
      rw [hhead, dictGet_dictSet]
      by_cases hs : (dictGet tl k).isSome <;> simp [hs, hk]

/-! ## Pipeline-construction lemmas -/

lemma construct_loop_length (ctx : PipeCtx) (cmds : List String)
    (i pgid : Nat) (prev : Option Handle) :
    (construct_loop ctx cmds i pgid prev).length = cmds.length := by
  induction cmds generalizing i pgid prev with
  | nil => rfl
  | cons c rest ih => simp [construct_loop, ih]

/-- Element `j` of the loop's output, for a call whose running group id
is already fixed (non-zero) and whose remaining commands reach to the
end of the pipeline (`i + cmds.length = ctx.n`). -/
lemma construct_loop_getElem (ctx : PipeCtx) (cmds : List String)
    (i pgid : Nat) (prev : Option Handle) (j : Nat) (c : String)
    (hpg : pgid ≠ 0) (hin : i + cmds.length = ctx.n)
    (hc : cmds[j]? = some c) :
    (construct_loop ctx cmds i pgid prev)[j]? =
      some { idx := i + j, pid := ctx.pidOf (i + j), cmd := c,
             stdin := if j = 0 then (if i = 0 then ctx.stdin else prev)
                      else some (.stdoutPipeOf (i + j - 1)),
             stdout := if i + j = ctx.n - 1 then ctx.stdout
                       else some .pipeMarker,
             stderr := ctx.stderr, envArg := ctx.env, cwd := ctx.cwd,
             processGroupArg := pgid, pgid := pgid } := by
  induction cmds generalizing i pgid prev j c with
  | nil => simp at hc
  | cons c0 rest ih =>
    simp only [List.length_cons] at hin
    have hlen : j < rest.length + 1 := by
      have h := List.getElem?_eq_some_iff.mp hc
      simpa using h.1
    cases j with
    | zero =>
      have hc0 : c0 = c := by simpa using hc
      subst hc0
      have hstdout :
          (if i = ctx.n - 1 then ctx.stdout
           else if i < ctx.n - 1 then some Handle.pipeMarker else none)
            = if i = ctx.n - 1 then ctx.stdout else some Handle.pipeMarker := by
        by_cases hi : i = ctx.n - 1
        · simp [hi]
        · have hlt : i < ctx.n - 1 := by omega
          simp [hi, hlt]
      simp only [construct_loop, List.getElem?_cons_zero, Option.some.injEq]
      rw [if_neg hpg, hstdout]
      simp
    | succ j' =>
      have hc' : rest[j']? = some c := by simpa using hc
      have hrest1 : j' < rest.length := by
        have h := List.getElem?_eq_some_iff.mp hc'
        exact h.1
      have harec :
          construct_loop ctx (c0 :: rest) i pgid prev
            = (⟨i, ctx.pidOf i, c0,
                if i = 0 then ctx.stdin else prev,
                if i = ctx.n - 1 then ctx.stdout
                else if i < ctx.n - 1 then some Handle.pipeMarker else none,
                ctx.stderr, ctx.env, ctx.cwd, pgid,
                if pgid = 0 then ctx.pidOf i else pgid⟩ : SpawnedProc)
              :: construct_loop ctx rest (i + 1)
                   (if pgid = 0 then ctx.pidOf i else pgid)
                   (popen_stdout_attr
                     ⟨i, ctx.pidOf i, c0,
                      if i = 0 then ctx.stdin else prev,
                      if i = ctx.n - 1 then ctx.stdout
                      else if i < ctx.n - 1 then some Handle.pipeMarker else none,
                      ctx.stderr, ctx.env, ctx.cwd, pgid,
                      if pgid = 0 then ctx.pidOf i else pgid⟩) := rfl
      have hstage0_out :
          (if i = ctx.n - 1 then ctx.stdout
           else if i < ctx.n - 1 then some Handle.pipeMarker else none)
            = some Handle.pipeMarker := by
        have h1 : i ≠ ctx.n - 1 := by omega
        have h2 : i < ctx.n - 1 := by omega
        simp [h1, h2]
      rw [harec]
      simp only [List.getElem?_cons_succ, if_neg hpg]
      have hprev' :
          popen_stdout_attr
            ⟨i, ctx.pidOf i, c0,
             if i = 0 then ctx.stdin else prev,
             if i = ctx.n - 1 then ctx.stdout
             else if i < ctx.n - 1 then some Handle.pipeMarker else none,
             ctx.stderr, ctx.env, ctx.cwd, pgid, pgid⟩
            = some (.stdoutPipeOf i) := by
        unfold popen_stdout_attr
        simp only [hstage0_out]
        simp
      rw [hprev']
      rw [ih (i + 1) pgid (some (.stdoutPipeOf i)) j' c hpg (by omega) hc']
      have hidx : (i + 1) + j' = i + (j' + 1) := by omega
      rw [hidx]
      cases j' with
      | zero => simp
      | succ j'' =>
        have hsub : i + (j'' + 1 + 1) - 1 = i + (j'' + 1) := by omega
        have hsub2 : i + 1 + (j'' + 1) - 1 = i + (j'' + 1) := by omega
        simp [hsub, hsub2]

/-- Element `j` of `construct_pipeline`: stage 0 takes the externally
supplied stdin and starts the group (its pid becomes the group id);
stage `j > 0` reads stage `j-1`'s stdout pipe and joins stage 0's group;
every stage but the last writes to a fresh pipe, the last to the
external stdout; all share the external stderr, the `env` argument, and
the working directory. -/
lemma construct_pipeline_getElem (cmds : List String) (cwd : Option String)
    (env : Dict) (sin sout serr : Option Handle) (pidOf : Nat → Nat)
    (hpid : pidOf 0 ≠ 0) (j : Nat) (c : String) (hc : cmds[j]? = some c) :
    (construct_pipeline cmds cwd env sin sout serr pidOf)[j]? =
      some { idx := j, pid := pidOf j, cmd := c,
             stdin := if j = 0 then sin else some (.stdoutPipeOf (j - 1)),
             stdout := if j = cmds.length - 1 then sout
                       else some .pipeMarker,
             stderr := serr, envArg := env, cwd := cwd,
             processGroupArg := if j = 0 then 0 else pidOf 0,
             pgid := pidOf 0 } := by
  cases cmds with
  | nil => simp at hc
  | cons c0 rest =>
    have hstep : construct_pipeline (c0 :: rest) cwd env sin sout serr pidOf
        = (⟨0, pidOf 0, c0, sin,
            if 0 = (c0 :: rest).length - 1 then sout
            else if 0 < (c0 :: rest).length - 1 then some Handle.pipeMarker
            else none,
            serr, env, cwd, 0, pidOf 0⟩ : SpawnedProc)
          :: construct_loop
               ⟨cwd, env, sin, sout, serr, (c0 :: rest).length, pidOf⟩
               rest 1 (pidOf 0)
               (popen_stdout_attr ⟨0, pidOf 0, c0, sin,
                 if 0 = (c0 :: rest).length - 1 then sout
                 else if 0 < (c0 :: rest).length - 1 then some Handle.pipeMarker
                 else none,
                 serr, env, cwd, 0, pidOf 0⟩) := rfl
    rw [hstep]
    cases j with
    | zero =>
      have hc0 : c0 = c := by simpa using hc
      subst hc0
      simp only [List.getElem?_cons_zero, Option.some.injEq, List.length_cons]
      by_cases hr : rest.length = 0
      · simp [hr]
      · have h1 : ¬ ((0 : Nat) = rest.length) := by omega
        have h2 : (0 : Nat) < rest.length := by omega
        simp [h1, h2]
    | succ j' =>
      have hc' : rest[j']? = some c := by simpa using hc
      have hrest1 : j' < rest.length := by
        have h := List.getElem?_eq_some_iff.mp hc'
        exact h.1
      have hprev :
          popen_stdout_attr (⟨0, pidOf 0, c0, sin,
            if 0 = (c0 :: rest).length - 1 then sout
            else if 0 < (c0 :: rest).length - 1 then some Handle.pipeMarker
            else none,
            serr, env, cwd, 0, pidOf 0⟩ : SpawnedProc)
            = some (.stdoutPipeOf 0) := by
        have h1 : ¬ ((0 : Nat) = (c0 :: rest).length - 1) := by
          simp only [List.length_cons]; omega
        have h2 : (0 : Nat) < (c0 :: rest).length - 1 := by
          simp only [List.length_cons]; omega
        have h3 : ¬ ((0 : Nat) = rest.length) := by omega
        have h4 : (0 : Nat) < rest.length := by omega
        unfold popen_stdout_attr
        simp [h1, h2, h3, h4]
      rw [hprev]
      simp only [List.getElem?_cons_succ]
      rw [construct_loop_getElem
        ⟨cwd, env, sin, sout, serr, (c0 :: rest).length, pidOf⟩
        rest 1 (pidOf 0) (some (.stdoutPipeOf 0)) j' c hpid
        (by simp only [List.length_cons]; omega) hc']
      have hidx : (1 : Nat) + j' = j' + 1 := by omega
      rw [hidx]
      cases j' with
      | zero => simp
      | succ j'' =>
        have hsub : j'' + 1 + 1 - 1 = j'' + 1 := by omega
        simp [hsub]

/-! ## Drain-loop lemmas -/

lemma run_drain_feeds_none (l : List SpawnedProc) (i : Nat) :
    run_drain_feeds l i none = [] := by
  induction l generalizing i with
  | nil => rfl
  | cons p rest ih => simp [run_drain_feeds, ih]

lemma cap_drain_feeds_none (n : Nat) (l : List SpawnedProc) (i : Nat)
    (hnp : ∀ p ∈ l, popen_stdin_is_pipe p = false) :
    cap_drain_feeds n l i none = [] := by
  induction l generalizing i with
  | nil => rfl
  | cons p rest ih =>
    have hp := hnp p (List.mem_cons_self p rest)
    have hrest : ∀ q ∈ rest, popen_stdin_is_pipe q = false :=
      fun q hq => hnp q (List.mem_cons_of_mem p hq)
    have ihx : ∀ j, cap_drain_feeds n rest j none = [] :=
      fun j => ih j hrest
    unfold cap_drain_feeds
    by_cases h1 : n = 1
    · rw [if_pos h1]
      simp [communicate_stdin_effects, hp, ihx]
    · rw [if_neg h1]
      by_cases h2 : i = n - 1 <;>
        simp [communicate_stdin_effects, hp, h2, ihx]

/-- No stage spawned by the loop holds a stdin pipe, provided neither
the incoming previous-stdout handle nor (when the loop starts at stage 0)
the external stdin is the `PIPE` marker. -/
lemma construct_loop_no_stdin_pipe (ctx : PipeCtx) (cmds : List String)
    (i pgid : Nat) (prev : Option Handle)
    (hprev : prev ≠ some Handle.pipeMarker)
    (hi : i = 0 → ctx.stdin ≠ some Handle.pipeMarker) :
    ∀ p ∈ construct_loop ctx cmds i pgid prev,
      popen_stdin_is_pipe p = false := by
  induction cmds generalizing i pgid prev with
  | nil => intro p hp; simp [construct_loop] at hp
  | cons c rest ih =>
    intro p hp
    simp only [construct_loop, List.mem_cons] at hp
    rcases hp with rfl | hp
    · unfold popen_stdin_is_pipe
      by_cases h0 : i = 0
      · simp [h0, hi h0]
      · simp [h0, hprev]
    · refine ih (i + 1) _ _ ?_ (by omega) p hp
      unfold popen_stdout_attr
      split <;> simp

/-! ## `prepare_std` shape lemmas -/

/-- Under conflict-free options, `prepare_std` yields a triple whose
stdin is the `PIPE` marker for input text, else the opened input file. -/
lemma prepare_std_ok (inptxt inpfl outfl errfl : Option String)
    (err2out : Bool)
    (hc1 : ¬(inptxt.isSome ∧ inpfl.isSome))
    (hc2 : ¬(errfl.isSome ∧ err2out = true)) :
    ∃ std : StdTriple,
      (prepare_std inptxt inpfl outfl errfl err2out).result = .ok std
        ∧ std.stdin =
            (if inptxt.isSome then some Handle.pipeMarker
             else open_stream_r inpfl) := by
  unfold prepare_std
  have hbi : (inptxt.isSome && inpfl.isSome) = false := by
    cases h1 : inptxt.isSome <;> cases h2 : inpfl.isSome <;> simp_all
  rw [if_neg (by simp [hbi])]
  cases he : err2out with
  | true =>
    have herrfl : errfl.isSome = false := by
      cases h : errfl.isSome
      · rfl
      · exact absurd ⟨h, he⟩ hc2
    simp [herrfl]
  | false => simp

/-- A conflicting option pair makes `prepare_std` raise. -/
lemma prepare_std_conflict (inptxt inpfl outfl errfl : Option String)
    (err2out : Bool)
    (h : (inptxt.isSome ∧ inpfl.isSome) ∨ (errfl.isSome ∧ err2out = true)) :
    ∃ e, (prepare_std inptxt inpfl outfl errfl err2out).result = .error e := by
  unfold prepare_std
  by_cases hb : (inptxt.isSome && inpfl.isSome) = true
  · simp [hb]
  · rcases h with h1 | h2
    · exact absurd (by simp [h1.1, h1.2]) hb
    · rw [if_neg (by simp_all)]
      simp [h2.2, h2.1]

lemma construct_pipeline_length (cmds : List String) (cwd : Option String)
    (env : Dict) (sin sout serr : Option Handle) (pidOf : Nat → Nat) :
    (construct_pipeline cmds cwd env sin sout serr pidOf).length
      = cmds.length :=
  construct_loop_length _ cmds 0 0 none

lemma construct_pipeline_no_stdin_pipe (cmds : List String)
    (cwd : Option String) (env : Dict) (sin sout serr : Option Handle)
    (pidOf : Nat → Nat) (hsin : sin ≠ some Handle.pipeMarker) :
    ∀ p ∈ construct_pipeline cmds cwd env sin sout serr pidOf,
      popen_stdin_is_pipe p = false := by
  unfold construct_pipeline
  exact construct_loop_no_stdin_pipe _ cmds 0 0 none (by simp)
    (fun _ => hsin)

/-- Stages after the first never hold a stdin pipe: their stdin is the
previous stage's stdout pipe object. -/
lemma construct_pipeline_tail_no_stdin_pipe (cmds : List String)
    (cwd : Option String) (env : Dict) (sin sout serr : Option Handle)
    (pidOf : Nat → Nat) (hpid : pidOf 0 ≠ 0) :
    ∀ j p,
      (construct_pipeline cmds cwd env sin sout serr pidOf)[j]? = some p →
      j ≠ 0 → popen_stdin_is_pipe p = false := by
  intro j p hj hj0
  have hjlen : j < cmds.length := by
    have h := (List.getElem?_eq_some_iff.mp hj).1
    rwa [construct_pipeline_length] at h
  obtain ⟨c, hc⟩ : ∃ c, cmds[j]? = some c := by
    rw [List.getElem?_eq_getElem hjlen]
    exact ⟨_, rfl⟩
  rw [construct_pipeline_getElem cmds cwd env sin sout serr pidOf hpid j c hc]
    at hj
  have hp : p = { idx := j, pid := pidOf j, cmd := c,
                  stdin := if j = 0 then sin
                           else some (.stdoutPipeOf (j - 1)),
                  stdout := if j = cmds.length - 1 then sout
                            else some .pipeMarker,
                  stderr := serr, envArg := env, cwd := cwd,
                  processGroupArg := if j = 0 then 0 else pidOf 0,
                  pgid := pidOf 0 } := by
    exact (Option.some.injEq _ _).mp hj.symm
  subst hp
  unfold popen_stdin_is_pipe
  simp [hj0]

lemma run_drain_feeds_eq_nil_of_no_pipe (l : List SpawnedProc) (i : Nat)
    (inp : Option String)
    (h : ∀ p ∈ l, popen_stdin_is_pipe p = false) :
    run_drain_feeds l i inp = [] := by
  cases l with
  | nil => cases inp <;> rfl
  | cons p rest =>
    cases inp with
    | none => exact run_drain_feeds_none _ _
    | some t =>
      have hp := h p (List.mem_cons_self p rest)
      simp [run_drain_feeds, communicate_stdin_effects, hp,
        run_drain_feeds_none]

lemma cap_drain_feeds_eq_nil_of_no_pipe (n : Nat) (l : List SpawnedProc)
    (i : Nat) (inp : Option String)
    (h : ∀ p ∈ l, popen_stdin_is_pipe p = false) :
    cap_drain_feeds n l i inp = [] := by
  induction l generalizing i inp with
  | nil => rfl
  | cons p rest ih =>
    have hp := h p (List.mem_cons_self p rest)
    have hrest : ∀ q ∈ rest, popen_stdin_is_pipe q = false :=
      fun q hq => h q (List.mem_cons_of_mem p hq)
    have ihx : ∀ j inp2, cap_drain_feeds n rest j inp2 = [] :=
      fun j inp2 => ih j inp2 hrest
    unfold cap_drain_feeds
    by_cases h1 : n = 1
    · rw [if_pos h1]
      simp [communicate_stdin_effects, hp, ihx]
    · rw [if_neg h1]
      by_cases hs : inp.isSome
      · simp [hs, communicate_stdin_effects, hp, ihx]
      · by_cases h2 : i = n - 1 <;>
          simp [hs, h2, communicate_stdin_effects, hp, ihx]

/-! ## Claim theorems -/

/-- Claim C1: the code evaluated at the failing input.  With inherited
environment `{PATH:/usr/bin, HOME:/root}` and session overlay
`{MYVAR:1}`, the spawned child receives exactly the overlay as its
environment (`Popen` is called with `env=env`); the merged `prcs_env`
that the claim describes is computed but never passed, so the inherited
`PATH` is absent from the child's environment while present in the
merged map. -/
theorem C1_child_env_is_overlay_only :
    (Piperum_run_spawn [("MYVAR", "1")] none ["cmd"] none none none none
        false (fun i => 100 + i)).spawned.map childEnv
      = [[("MYVAR", "1")]]
    ∧ mergedEnv [("PATH", "/usr/bin"), ("HOME", "/root")] [("MYVAR", "1")]
      = [("PATH", "/usr/bin"), ("HOME", "/root"), ("MYVAR", "1")]
    ∧ dictGet [("MYVAR", "1")] "PATH" = none
    ∧ dictGet
        (mergedEnv [("PATH", "/usr/bin"), ("HOME", "/root")] [("MYVAR", "1")])
        "PATH" = some "/usr/bin" :=
  ⟨rfl, rfl, rfl, rfl⟩

/-- Claim C2: the code evaluated at the failing input.  `prepare_std` with an
output file opens a handle and yields it; when the scope ends, the
`finally` block's discarded lazy map closes nothing, although consuming
that same map would close exactly the opened stream. -/
theorem C2_exit_closes_no_handle :
    (prepare_std none none (some "out.log") none false).opened
      = [Handle.file "out.log" "w"]
    ∧ (prepare_std none none (some "out.log") none false).result
      = .ok ⟨none, some (.file "out.log" "w"), none⟩
    ∧ prepare_std_exit_closes none (some (.file "out.log" "w")) none = []
    ∧ prepare_std_intended_closes none (some (.file "out.log" "w")) none
      = [some (.file "out.log" "w")] :=
  ⟨by decide, by decide, rfl, rfl⟩

/-- Claim C3: the code evaluated at the failing input.  `_kill` on a one-stage
pipeline sends SIGKILL to the group, swallows the process-gone error
(no error propagates whether or not the group still exists), but reaps
nothing: its `map(lambda prc: prc.wait(), prcs)` is never consumed,
although consuming it would wait on every stage. -/
theorem C3_kill_reaps_no_stage :
    (Piperum_kill true
        (construct_pipeline ["sleep 5"] none [] none none none
          (fun i => 4242 + i))).killpgSent = some ⟨4242, SIGKILL⟩
    ∧ (Piperum_kill true
        (construct_pipeline ["sleep 5"] none [] none none none
          (fun i => 4242 + i))).raised = false
    ∧ (Piperum_kill false
        (construct_pipeline ["sleep 5"] none [] none none none
          (fun i => 4242 + i))).killpgSent = none
    ∧ (Piperum_kill false
        (construct_pipeline ["sleep 5"] none [] none none none
          (fun i => 4242 + i))).raised = false
    ∧ (Piperum_kill true
        (construct_pipeline ["sleep 5"] none [] none none none
          (fun i => 4242 + i))).waitedPids = []
    ∧ Piperum_kill_intended_waits
        (construct_pipeline ["sleep 5"] none [] none none none
          (fun i => 4242 + i)) = [4242] :=
  ⟨rfl, rfl, rfl, rfl, rfl, rfl⟩

/-- Claim C4: the code evaluated at the failing input.  On a two-stage
pipeline whose stages exit 0 and 3, `Task.wait` returns inside the first
loop iteration: it waits only on stage 0 and returns stage 0's code 0,
not the tail stage's code 3.  Only the timeout branch behaves as the
claim says: a timed-out wait kills the group with SIGKILL and re-raises. -/
theorem C4_wait_returns_first_stage_code :
    Task_wait 4242 true [some 0, some 3]
      = .returned (some 0) [0]
    ∧ TaskWaitResult.returned (some 0) [0]
        ≠ TaskWaitResult.returned (some 3) [0, 1]
    ∧ Task_wait 4242 true [none, some 3]
      = .timedOut [⟨4242, SIGKILL⟩] [0] :=
  ⟨rfl, by decide, rfl⟩

/-- Claim C6 counterexample: calling a session whose environment map is empty
with the overlay `{A:1}` leaves the original session's map equal to
`{A:1}`, not to its prior empty value — deriving a session mutates the
original's environment map. -/
theorem C6_counterexample_call_mutates_parent :
    ¬ ((Piperum_call ⟨[], none⟩ none [("A", "1")]).1.env = ([] : Dict)) := by
  decide

/-- Claim C6 as amended: after `s(**e)`, the original session's environment map
equals the derived session's — they share one backing map — namely the
prior map updated with `e`: a key bound by `e` reads its `e` value,
every other key keeps its prior value. -/
theorem C6_amended_shared_backing_map_updated
    (s : PiperumState) (cwd : Option String) (e : Dict)
    (he : (e.map Prod.fst).Nodup) :
    (Piperum_call s cwd e).1.env = (Piperum_call s cwd e).2.env
    ∧ ∀ k, dictGet (Piperum_call s cwd e).1.env k =
        (if (dictGet e k).isSome then dictGet e k else dictGet s.env k) :=
  ⟨rfl, fun k => dictGet_dictUpdate s.env e he k⟩

/-- Claim C6 witness: the amended claim at a concrete session and overlay. -/
theorem C6_amended_witness :
    (([("A", "1"), ("C", "3")] : Dict).map Prod.fst).Nodup
    ∧ ((Piperum_call ⟨[("A", "0"), ("B", "2")], none⟩ none
          [("A", "1"), ("C", "3")]).1.env
        = (Piperum_call ⟨[("A", "0"), ("B", "2")], none⟩ none
            [("A", "1"), ("C", "3")]).2.env
      ∧ ∀ k, dictGet (Piperum_call ⟨[("A", "0"), ("B", "2")], none⟩ none
            [("A", "1"), ("C", "3")]).1.env k =
          (if (dictGet [("A", "1"), ("C", "3")] k).isSome
           then dictGet [("A", "1"), ("C", "3")] k
           else dictGet [("A", "0"), ("B", "2")] k)) :=
  ⟨by decide,
   C6_amended_shared_backing_map_updated ⟨[("A", "0"), ("B", "2")], none⟩
     none [("A", "1"), ("C", "3")] (by decide)⟩

/-- Claim C10: `Task.kill` with signal 0 delivers SIGKILL to the process group
(`signal or SIGKILL` replaces a falsy signal), any non-zero signal is
delivered exactly as given, and in every case — group alive or already
gone — the call returns without raising (the no-such-process error is
swallowed). -/
theorem C10_kill_zero_signal_becomes_sigkill
    (pid sig : Nat) (groupExists : Bool) (hsig : sig ≠ 0) :
    Task_kill pid groupExists 0
      = (if groupExists then [⟨pid, SIGKILL⟩] else [])
    ∧ Task_kill pid groupExists sig
      = (if groupExists then [⟨pid, sig⟩] else []) := by
  unfold Task_kill os_killpg pyOrSig
  cases groupExists <;> simp [hsig]

/-- Claim C10 witness: concrete pid 7, non-zero signal 15, group alive. -/
theorem C10_witness :
    (15 : Nat) ≠ 0
    ∧ (Task_kill 7 true 0 = (if true then [⟨7, SIGKILL⟩] else [])
      ∧ Task_kill 7 true 15 = (if true then [⟨7, 15⟩] else [])) :=
  ⟨by decide, C10_kill_zero_signal_becomes_sigkill 7 15 true (by decide)⟩

/-- Claim C7: supplying both `inptxt` and `inpfl`, or both `errfl` and
`err2out=true`, makes `run` and `cap` raise a configuration error with
no stage spawned; `run_bg` (which has no `inptxt` parameter) does the
same for the `errfl`/`err2out` conflict. -/
theorem C7_conflicts_spawn_no_process
    (envO : Dict) (cwd : Option String) (cmds : List String)
    (inptxt inpfl outfl errfl : Option String) (err2out : Bool)
    (pidOf : Nat → Nat)
    (h : (inptxt.isSome ∧ inpfl.isSome) ∨ (errfl.isSome ∧ err2out = true)) :
    ((Piperum_run_spawn envO cwd cmds inptxt inpfl outfl errfl err2out
        pidOf).spawned = []
      ∧ (Piperum_run_spawn envO cwd cmds inptxt inpfl outfl errfl err2out
          pidOf).configError.isSome)
    ∧ ((Piperum_cap_spawn envO cwd cmds inptxt inpfl errfl err2out
          pidOf).spawned = []
      ∧ (Piperum_cap_spawn envO cwd cmds inptxt inpfl errfl err2out
          pidOf).configError.isSome)
    ∧ ((errfl.isSome ∧ err2out = true) →
        (Piperum_run_bg_spawn envO cwd cmds inpfl outfl errfl err2out
            pidOf).spawned = []
          ∧ (Piperum_run_bg_spawn envO cwd cmds inpfl outfl errfl err2out
              pidOf).configError.isSome) := by
  obtain ⟨e1, he1⟩ := prepare_std_conflict inptxt inpfl outfl errfl err2out h
  obtain ⟨e2, he2⟩ := prepare_std_conflict inptxt inpfl none errfl err2out h
  refine ⟨?_, ?_, ?_⟩
  · unfold Piperum_run_spawn
    rw [he1]
    exact ⟨rfl, rfl⟩
  · unfold Piperum_cap_spawn
    rw [he2]
    exact ⟨rfl, rfl⟩
  · intro h2
    obtain ⟨e3, he3⟩ :=
      prepare_std_conflict none inpfl outfl errfl err2out (Or.inr h2)
    unfold Piperum_run_bg_spawn
    rw [he3]
    exact ⟨rfl, rfl⟩

/-- Claim C7 witness: both conflicts supplied at once. -/
theorem C7_witness :
    (((some "txt" : Option String).isSome ∧ (some "fl" : Option String).isSome)
        ∨ ((some "err" : Option String).isSome ∧ true = true))
    ∧ (((Piperum_run_spawn [] none ["c"] (some "txt") (some "fl") none
          (some "err") true (fun i => 100 + i)).spawned = []
        ∧ (Piperum_run_spawn [] none ["c"] (some "txt") (some "fl") none
            (some "err") true (fun i => 100 + i)).configError.isSome)
      ∧ ((Piperum_cap_spawn [] none ["c"] (some "txt") (some "fl")
            (some "err") true (fun i => 100 + i)).spawned = []
        ∧ (Piperum_cap_spawn [] none ["c"] (some "txt") (some "fl")
            (some "err") true (fun i => 100 + i)).configError.isSome)
      ∧ (((some "err" : Option String).isSome ∧ true = true) →
          (Piperum_run_bg_spawn [] none ["c"] (some "fl") none
              (some "err") true (fun i => 100 + i)).spawned = []
            ∧ (Piperum_run_bg_spawn [] none ["c"] (some "fl") none
                (some "err") true (fun i => 100 + i)).configError.isSome)) :=
  ⟨by decide,
   C7_conflicts_spawn_no_process [] none ["c"] (some "txt") (some "fl")
     none (some "err") true (fun i => 100 + i) (by decide)⟩

/-- Claim C8: for a non-empty pipeline, stage 0's stdin is the external stdin
and stage `j > 0`'s stdin is stage `j-1`'s stdout pipe; the last stage's
stdout is the external stdout and every earlier stage's stdout is a new
pipe; every stage's stderr is the external stderr; and every stage's
process group is the first stage's pid. -/
theorem C8_wiring_and_process_group
    (cmds : List String) (cwd : Option String) (env : Dict)
    (sin sout serr : Option Handle) (pidOf : Nat → Nat)
    (_hcmds : cmds ≠ []) (hpid : pidOf 0 ≠ 0) :
    (construct_pipeline cmds cwd env sin sout serr pidOf).length
        = cmds.length
    ∧ (∀ p, (construct_pipeline cmds cwd env sin sout serr pidOf)[0]?
          = some p → p.stdin = sin)
    ∧ (∀ j p, 0 < j →
        (construct_pipeline cmds cwd env sin sout serr pidOf)[j]? = some p →
        p.stdin = some (.stdoutPipeOf (j - 1)))
    ∧ (∀ p, (construct_pipeline cmds cwd env sin sout serr
          pidOf)[cmds.length - 1]? = some p → p.stdout = sout)
    ∧ (∀ j p, j < cmds.length - 1 →
        (construct_pipeline cmds cwd env sin sout serr pidOf)[j]? = some p →
        p.stdout = some .pipeMarker)
    ∧ (∀ (j : Nat) (p : SpawnedProc),
        (construct_pipeline cmds cwd env sin sout serr pidOf)[j]? = some p →
        p.stderr = serr)
    ∧ (∀ (j : Nat) (p p0 : SpawnedProc),
        (construct_pipeline cmds cwd env sin sout serr pidOf)[j]? = some p →
        (construct_pipeline cmds cwd env sin sout serr pidOf)[0]? = some p0 →
        p.pgid = p0.pid) := by
  have hchar : ∀ (j : Nat) (p : SpawnedProc),
      (construct_pipeline cmds cwd env sin sout serr pidOf)[j]? = some p →
      p = { idx := j, pid := pidOf j,
            cmd := cmds.getD j "",
            stdin := if j = 0 then sin else some (.stdoutPipeOf (j - 1)),
            stdout := if j = cmds.length - 1 then sout
                      else some .pipeMarker,
            stderr := serr, envArg := env, cwd := cwd,
            processGroupArg := if j = 0 then 0 else pidOf 0,
            pgid := pidOf 0 } := by
    intro j p hj
    have hjlen : j < cmds.length := by
      have h := (List.getElem?_eq_some_iff.mp hj).1
      rwa [construct_pipeline_length] at h
    have hc : cmds[j]? = some (cmds.getD j "") := by
      rw [List.getElem?_eq_getElem hjlen]
      rw [List.getD_eq_getElem cmds "" hjlen]
    rw [construct_pipeline_getElem cmds cwd env sin sout serr pidOf hpid
      j (cmds.getD j "") hc] at hj
    exact ((Option.some.injEq _ _).mp hj.symm)
  refine ⟨construct_pipeline_length cmds cwd env sin sout serr pidOf,
    ?_, ?_, ?_, ?_, ?_, ?_⟩
  · intro p hp
    rw [hchar 0 p hp]
    simp
  · intro j p hj hp
    rw [hchar j p hp]
    simp [Nat.pos_iff_ne_zero.mp hj]
  · intro p hp
    rw [hchar (cmds.length - 1) p hp]
    simp
  · intro j p hj hp
    rw [hchar j p hp]
    simp [show j ≠ cmds.length - 1 from by omega]
  · intro j p hp
    rw [hchar j p hp]
  · intro j p p0 hp hp0
    rw [hchar j p hp, hchar 0 p0 hp0]

/-- Claim C8 witness: a three-stage pipeline with concrete pids. -/
theorem C8_witness :
    (["c0", "c1", "c2"] : List String) ≠ []
    ∧ (fun i => 100 + i) 0 ≠ 0
    ∧ ((construct_pipeline ["c0", "c1", "c2"] none [] (some .pipeMarker)
          (some (.file "o" "w")) (some (.file "e" "w"))
          (fun i => 100 + i)).length = (["c0", "c1", "c2"] : List String).length
      ∧ (∀ p, (construct_pipeline ["c0", "c1", "c2"] none []
            (some .pipeMarker) (some (.file "o" "w")) (some (.file "e" "w"))
            (fun i => 100 + i))[0]? = some p → p.stdin = some .pipeMarker)
      ∧ (∀ j p, 0 < j →
          (construct_pipeline ["c0", "c1", "c2"] none [] (some .pipeMarker)
            (some (.file "o" "w")) (some (.file "e" "w"))
            (fun i => 100 + i))[j]? = some p →
          p.stdin = some (.stdoutPipeOf (j - 1)))
      ∧ (∀ p, (construct_pipeline ["c0", "c1", "c2"] none []
            (some .pipeMarker) (some (.file "o" "w")) (some (.file "e" "w"))
            (fun i => 100 + i))[(["c0", "c1", "c2"] : List String).length - 1]?
              = some p → p.stdout = some (.file "o" "w"))
      ∧ (∀ j p, j < (["c0", "c1", "c2"] : List String).length - 1 →
          (construct_pipeline ["c0", "c1", "c2"] none [] (some .pipeMarker)
            (some (.file "o" "w")) (some (.file "e" "w"))
            (fun i => 100 + i))[j]? = some p →
          p.stdout = some .pipeMarker)
      ∧ (∀ (j : Nat) (p : SpawnedProc),
          (construct_pipeline ["c0", "c1", "c2"] none [] (some .pipeMarker)
            (some (.file "o" "w")) (some (.file "e" "w"))
            (fun i => 100 + i))[j]? = some p → p.stderr = some (.file "e" "w"))
      ∧ (∀ (j : Nat) (p p0 : SpawnedProc),
          (construct_pipeline ["c0", "c1", "c2"] none [] (some .pipeMarker)
            (some (.file "o" "w")) (some (.file "e" "w"))
            (fun i => 100 + i))[j]? = some p →
          (construct_pipeline ["c0", "c1", "c2"] none [] (some .pipeMarker)
            (some (.file "o" "w")) (some (.file "e" "w"))
            (fun i => 100 + i))[0]? = some p0 →
          p.pgid = p0.pid)) :=
  ⟨by decide, by decide,
   C8_wiring_and_process_group ["c0", "c1", "c2"] none [] (some .pipeMarker)
     (some (.file "o" "w")) (some (.file "e" "w")) (fun i => 100 + i)
     (by decide) (by decide)⟩

/-- Claim C9: a sweep removes exactly the tasks whose tail stage has exited
and keeps every live task; the polling loop's iteration exits precisely
when the outstanding set is empty; and `add` on a dead (or never
started) thread leaves a fresh live thread, returns the added task, and
the task is in the outstanding set. -/
theorem C9_poller_sweep_exit_restart
    (tasks : List BgTask) (st : PollerState) (t : BgTask)
    (hdead : st.threadAlive = false) :
    (∀ u, u ∈ poll_sweep tasks ↔ u ∈ tasks ∧ u.returncode = none)
    ∧ (poll_iteration tasks = none ↔ tasks = [])
    ∧ (TaskPoller_add st t).1.threadAlive = true
    ∧ (TaskPoller_add st t).2 = t
    ∧ t ∈ (TaskPoller_add st t).1.tasks := by
  refine ⟨?_, ?_, ?_, rfl, ?_⟩
  · intro u
    simp only [poll_sweep, List.mem_filter, decide_eq_true_eq]
    constructor
    · rintro ⟨hu, hnot⟩
      refine ⟨hu, ?_⟩
      by_contra hrc
      exact hnot ⟨hu, Option.isSome_iff_ne_none.mpr hrc⟩
    · rintro ⟨hu, hrc⟩
      refine ⟨hu, fun hmem => ?_⟩
      rw [hrc] at hmem
      exact absurd hmem.2 (by simp)
  · unfold poll_iteration
    cases tasks <;> simp
  · unfold TaskPoller_add
    simp [hdead]
  · unfold TaskPoller_add
    by_cases hmem : t ∈ st.tasks <;> simp [hmem]

/-- Claim C9 witness: one finished task, one live, a dead thread and a fresh
task. -/
theorem C9_witness :
    (⟨[], false⟩ : PollerState).threadAlive = false
    ∧ ((∀ u, u ∈ poll_sweep [⟨1, some 0⟩, ⟨2, none⟩]
          ↔ u ∈ ([⟨1, some 0⟩, ⟨2, none⟩] : List BgTask)
            ∧ u.returncode = none)
      ∧ (poll_iteration [⟨1, some 0⟩, ⟨2, none⟩] = none
          ↔ ([⟨1, some 0⟩, ⟨2, none⟩] : List BgTask) = [])
      ∧ (TaskPoller_add ⟨[], false⟩ ⟨3, none⟩).1.threadAlive = true
      ∧ (TaskPoller_add ⟨[], false⟩ ⟨3, none⟩).2 = ⟨3, none⟩
      ∧ (⟨3, none⟩ : BgTask) ∈ (TaskPoller_add ⟨[], false⟩ ⟨3, none⟩).1.tasks) :=
  ⟨rfl,
   C9_poller_sweep_exit_restart [⟨1, some 0⟩, ⟨2, none⟩] ⟨[], false⟩
     ⟨3, none⟩ rfl⟩

/-- Claim C5: with an input file and no input text, the opened file is stage
0's stdin handle directly and draining writes no text to any stage's
stdin and closes no stdin channel — every stage's communicate/wait
degenerates to a plain wait because no stage holds a stdin pipe — in
both `run` and `cap`; only when input text is supplied is the text
written to the first stage's stdin pipe and that channel then closed. -/
theorem C5_input_file_feeds_no_text
    (envO : Dict) (cwd : Option String) (cmds : List String)
    (f t : String) (outfl errfl : Option String) (err2out : Bool)
    (pidOf : Nat → Nat)
    (hcmds : cmds ≠ []) (hpid : pidOf 0 ≠ 0)
    (hconf : ¬(errfl.isSome ∧ err2out = true)) (ht : t ≠ "") :
    ((Piperum_run_spawn envO cwd cmds none (some f) outfl errfl err2out
        pidOf).spawned.head?.map SpawnedProc.stdin
      = some (some (.file (cleanPath f) "r"))
    ∧ run_drain_feeds (Piperum_run_spawn envO cwd cmds none (some f)
        outfl errfl err2out pidOf).spawned 0 (pyOr none (some f)) = [])
    ∧ ((Piperum_cap_spawn envO cwd cmds none (some f) errfl err2out
          pidOf).spawned.head?.map SpawnedProc.stdin
        = some (some (.file (cleanPath f) "r"))
      ∧ cap_drain_feeds
          (Piperum_cap_spawn envO cwd cmds none (some f) errfl err2out
            pidOf).spawned.length
          (Piperum_cap_spawn envO cwd cmds none (some f) errfl err2out
            pidOf).spawned 0 (pyOr none (some f)) = [])
    ∧ run_drain_feeds (Piperum_run_spawn envO cwd cmds (some t) none
        outfl errfl err2out pidOf).spawned 0 (pyOr (some t) none)
      = [.wroteStdin 0 t, .closedStdin 0]
    ∧ cap_drain_feeds
        (Piperum_cap_spawn envO cwd cmds (some t) none errfl err2out
          pidOf).spawned.length
        (Piperum_cap_spawn envO cwd cmds (some t) none errfl err2out
          pidOf).spawned 0 (pyOr (some t) none)
      = [.wroteStdin 0 t, .closedStdin 0] := by
  obtain ⟨c0, rest, rfl⟩ : ∃ c0 rest, cmds = c0 :: rest := by
    cases cmds with
    | nil => exact absurd rfl hcmds
    | cons c0 rest => exact ⟨c0, rest, rfl⟩
  have hc0 : (c0 :: rest)[0]? = some c0 := by simp
  -- the file-input triples of run and cap
  obtain ⟨stdA, hA, hsA⟩ :=
    prepare_std_ok none (some f) outfl errfl err2out (by simp) hconf
  obtain ⟨stdB, hB, hsB⟩ :=
    prepare_std_ok none (some f) none errfl err2out (by simp) hconf
  have hsA' : stdA.stdin = some (.file (cleanPath f) "r") := by
    simpa [open_stream_r] using hsA
  have hsB' : stdB.stdin = some (.file (cleanPath f) "r") := by
    simpa [open_stream_r] using hsB
  have hrunA : (Piperum_run_spawn envO cwd (c0 :: rest) none (some f)
      outfl errfl err2out pidOf).spawned
      = construct_pipeline (c0 :: rest) cwd envO stdA.stdin stdA.stdout
          stdA.stderr pidOf := by
    unfold Piperum_run_spawn
    rw [hA]
  have hcapB : (Piperum_cap_spawn envO cwd (c0 :: rest) none (some f)
      errfl err2out pidOf).spawned
      = construct_pipeline (c0 :: rest) cwd envO stdB.stdin
          (some .pipeMarker) stdB.stderr pidOf := by
    unfold Piperum_cap_spawn
    rw [hB]
  -- the text-input triples of run and cap
  obtain ⟨stdC, hC, hsC⟩ :=
    prepare_std_ok (some t) none outfl errfl err2out (by simp) hconf
  obtain ⟨stdD, hD, hsD⟩ :=
    prepare_std_ok (some t) none none errfl err2out (by simp) hconf
  have hsC' : stdC.stdin = some .pipeMarker := by simpa using hsC
  have hsD' : stdD.stdin = some .pipeMarker := by simpa using hsD
  have hrunC : (Piperum_run_spawn envO cwd (c0 :: rest) (some t) none
      outfl errfl err2out pidOf).spawned
      = construct_pipeline (c0 :: rest) cwd envO stdC.stdin stdC.stdout
          stdC.stderr pidOf := by
    unfold Piperum_run_spawn
    rw [hC]
  have hcapD : (Piperum_cap_spawn envO cwd (c0 :: rest) (some t) none
      errfl err2out pidOf).spawned
      = construct_pipeline (c0 :: rest) cwd envO stdD.stdin
          (some .pipeMarker) stdD.stderr pidOf := by
    unfold Piperum_cap_spawn
    rw [hD]
  have hpyF : pyOr none (some f) = some f := rfl
  have hpyT : pyOr (some t) none = some t := by
    simp [pyOr, pyTruthyStr, ht]
  refine ⟨⟨?_, ?_⟩, ⟨?_, ?_⟩, ?_, ?_⟩
  -- run, input file: stage 0's stdin is the opened file
  · rw [hrunA, List.head?_eq_getElem?,
      construct_pipeline_getElem (c0 :: rest) cwd envO stdA.stdin
        stdA.stdout stdA.stderr pidOf hpid 0 c0 hc0]
    simp [hsA']
  -- run, input file: nothing is fed
  · rw [hrunA, hpyF]
    exact run_drain_feeds_eq_nil_of_no_pipe _ 0 (some f)
      (construct_pipeline_no_stdin_pipe _ _ _ _ _ _ _
        (by rw [hsA']; simp))
  -- cap, input file: stage 0's stdin is the opened file
  · rw [hcapB, List.head?_eq_getElem?,
      construct_pipeline_getElem (c0 :: rest) cwd envO stdB.stdin
        (some .pipeMarker) stdB.stderr pidOf hpid 0 c0 hc0]
    simp [hsB']
  -- cap, input file: nothing is fed
  · rw [hcapB, hpyF]
    exact cap_drain_feeds_eq_nil_of_no_pipe _ _ 0 (some f)
      (construct_pipeline_no_stdin_pipe _ _ _ _ _ _ _
        (by rw [hsB']; simp))
  -- run, input text: the text goes to stage 0's stdin pipe, then close
  · rw [hrunC, hpyT]
    have hq0 := construct_pipeline_getElem (c0 :: rest) cwd envO
      stdC.stdin stdC.stdout stdC.stderr pidOf hpid 0 c0 hc0
    cases hsp : construct_pipeline (c0 :: rest) cwd envO stdC.stdin
        stdC.stdout stdC.stderr pidOf with
    | nil =>
      rw [hsp] at hq0
      simp at hq0
    | cons q qs =>
      rw [hsp] at hq0
      have hq : q.stdin = stdC.stdin := by
        have := (Option.some.injEq _ _).mp (by simpa using hq0)
        rw [this]
      have hqp : popen_stdin_is_pipe q = true := by
        unfold popen_stdin_is_pipe
        rw [hq, hsC']
        simp
      show communicate_stdin_effects 0 (popen_stdin_is_pipe q) (some t)
            ++ run_drain_feeds qs 1 none
          = [.wroteStdin 0 t, .closedStdin 0]
      rw [hqp, run_drain_feeds_none]
      simp [communicate_stdin_effects]
  -- cap, input text: the text goes to stage 0's stdin pipe, then close
  · rw [hcapD, hpyT]
    have hq0 := construct_pipeline_getElem (c0 :: rest) cwd envO
      stdD.stdin (some .pipeMarker) stdD.stderr pidOf hpid 0 c0 hc0
    have hlen := construct_pipeline_length (c0 :: rest) cwd envO
      stdD.stdin (some .pipeMarker) stdD.stderr pidOf
    have htail : ∀ j p, (construct_pipeline (c0 :: rest) cwd envO
        stdD.stdin (some .pipeMarker) stdD.stderr pidOf)[j]? = some p →
        j ≠ 0 → popen_stdin_is_pipe p = false :=
      construct_pipeline_tail_no_stdin_pipe (c0 :: rest) cwd envO
        stdD.stdin (some .pipeMarker) stdD.stderr pidOf hpid
    cases hsp : construct_pipeline (c0 :: rest) cwd envO stdD.stdin
        (some .pipeMarker) stdD.stderr pidOf with
    | nil =>
      rw [hsp] at hlen
      simp at hlen
    | cons q qs =>
      rw [hsp] at hq0 hlen htail
      have hq : q.stdin = stdD.stdin := by
        have := (Option.some.injEq _ _).mp (by simpa using hq0)
        rw [this]
      have hqp : popen_stdin_is_pipe q = true := by
        unfold popen_stdin_is_pipe
        rw [hq, hsD']
        simp
      have hqsnp : ∀ p ∈ qs, popen_stdin_is_pipe p = false := by
        intro p hp
        obtain ⟨k, hk⟩ := List.mem_iff_getElem?.mp hp
        exact htail (k + 1) p (by simpa using hk) (by omega)
      have hqslen : qs.length = rest.length := by simpa using hlen
      by_cases hr : rest.length = 0
      · have hqs : qs = [] := List.length_eq_zero.mp (by omega)
        subst hqs
        have hn1 : (q :: ([] : List SpawnedProc)).length = 1 := rfl
        rw [hn1]
        show communicate_stdin_effects 0 (popen_stdin_is_pipe q) (some t)
              ++ cap_drain_feeds 1 [] 1 (some t)
            = [.wroteStdin 0 t, .closedStdin 0]
        rw [hqp]
        simp [communicate_stdin_effects, cap_drain_feeds]
      · have hn : (q :: qs).length = qs.length + 1 := rfl
        rw [hn]
        have hne1 : qs.length + 1 ≠ 1 := by omega
        unfold cap_drain_feeds
        rw [if_neg hne1]
        simp only [Option.isSome_some, if_true]
        rw [hqp, cap_drain_feeds_eq_nil_of_no_pipe _ qs 1 none hqsnp]
        simp [communicate_stdin_effects]

/-- Claim C5 witness: a two-stage pipeline, file input `in.txt`, text input
`hello`. -/
theorem C5_witness :
    (["cat", "wc -l"] : List String) ≠ []
    ∧ (fun i => 100 + i) 0 ≠ 0
    ∧ ¬((none : Option String).isSome ∧ false = true)
    ∧ ("hello" : String) ≠ ""
    ∧ (((Piperum_run_spawn [] none ["cat", "wc -l"] none (some "in.txt")
          none none false (fun i => 100 + i)).spawned.head?.map
            SpawnedProc.stdin
        = some (some (.file (cleanPath "in.txt") "r"))
      ∧ run_drain_feeds (Piperum_run_spawn [] none ["cat", "wc -l"] none
          (some "in.txt") none none false
          (fun i => 100 + i)).spawned 0 (pyOr none (some "in.txt")) = [])
      ∧ ((Piperum_cap_spawn [] none ["cat", "wc -l"] none (some "in.txt")
            none false (fun i => 100 + i)).spawned.head?.map
              SpawnedProc.stdin
          = some (some (.file (cleanPath "in.txt") "r"))
        ∧ cap_drain_feeds
            (Piperum_cap_spawn [] none ["cat", "wc -l"] none
              (some "in.txt") none false (fun i => 100 + i)).spawned.length
            (Piperum_cap_spawn [] none ["cat", "wc -l"] none
              (some "in.txt") none false (fun i => 100 + i)).spawned 0
            (pyOr none (some "in.txt")) = [])
      ∧ run_drain_feeds (Piperum_run_spawn [] none ["cat", "wc -l"]
          (some "hello") none none none false
          (fun i => 100 + i)).spawned 0 (pyOr (some "hello") none)
        = [.wroteStdin 0 "hello", .closedStdin 0]
      ∧ cap_drain_feeds
          (Piperum_cap_spawn [] none ["cat", "wc -l"] (some "hello") none
            none false (fun i => 100 + i)).spawned.length
          (Piperum_cap_spawn [] none ["cat", "wc -l"] (some "hello") none
            none false (fun i => 100 + i)).spawned 0
          (pyOr (some "hello") none)
        = [.wroteStdin 0 "hello", .closedStdin 0]) :=
  ⟨by decide, by decide, by decide, by decide,
   C5_input_file_feeds_no_text [] none ["cat", "wc -l"] "in.txt" "hello"
     none none false (fun i => 100 + i) (by decide) (by decide)
     (by decide) (by decide)⟩

end Piperum
